import Mathlib

/-!
# Verification of the iDRAC8 hardware-monitor telemetry core

Shallow embedding of the backend of `uk0/idrac8-server-monitor`
(`backend/idrac_client.py`, `backend/main.py`) and proofs about it.

Conventions of the embedding:
* A JSON document field read with `d.get(k, default)` is modelled as an
  `Option` field, `none` meaning the key is absent (a key present with a JSON
  `null` value is collapsed into `none` as well).
* A field read with direct indexing `d[k]` (which the source only performs
  after establishing presence, or on references it requires) is modelled as a
  plain field.
* `requests` calls made through `IDRACRedfishClient._make_request` return
  `Option` documents: `none` models every non-2xx/404/SSL/timeout/connection
  outcome, all of which the source maps to Python `None`.
* Wall-clock values (`datetime.now().isoformat()`, `time.time()` durations)
  are passed in as explicit parameters (`now`, `elapsed`).
* Python `float` arithmetic in `_convert_bytes_to_gb` is modelled with exact
  rationals; `round(x, 2)` becomes rational rounding to two decimals (the
  bankers-rounding tie behaviour of Python floats is abstracted; no claim
  depends on it).
* Python's stable `list.sort(key=..., reverse=True)` is modelled by
  `List.insertionSort` with the relation "timestamp greater-or-equal", which
  is a stable descending sort exactly like CPython's.
-/

namespace IdracMonitor

/-- Python `str.lower()` (ASCII case-folding, which is all the compared
literals need).  Defined through the character list so that it reduces in
the kernel; it agrees with `String.toLower`. -/
def lowerString (s : String) : String := ⟨s.data.map Char.toLower⟩

/-- A Redfish `Status` sub-document: the three fields consulted by
`IDRACHardwareMonitor._normalize_status`. -/
structure StatusDoc where
  state : Option String
  health : Option String
  healthRollup : Option String
deriving DecidableEq

/-- `IDRACHardwareMonitor._normalize_status` (idrac_client.py lines 194-218).
The argument is `Option StatusDoc`: `none` models a falsy argument (`None` or
the empty dict `{}` that callers pass as the default). -/
def _normalize_status (doc : Option StatusDoc) : String :=
  match doc with
  | none => "unknown"
  | some st =>
    let state := lowerString (st.state.getD "")
    let health := lowerString (st.health.getD "")
    let health_rollup := lowerString (st.healthRollup.getD "")
    if health = "critical" ∨ health_rollup = "critical" then "critical"
    else if health = "warning" ∨ health_rollup = "warning" then "warning"
    else if health = "ok" ∨ health_rollup = "ok" then
      if state = "enabled" then "healthy"
      else if state = "standbyspare" then "standby"
      else "healthy"
    else if state = "absent" ∨ state = "unavailableoffline" then "offline"
    else "unknown"

/-- Modelled from the spec (§4.1): the `normalize` contract over the triple
`(state, health, healthRollup)`, absent treated as empty string, case-folded,
first matching rule wins. Written from the spec's words, to be compared with
`_normalize_status` which is translated from the code. -/
def normalizeSpec (state health healthRollup : Option String) : String :=
  let s := lowerString (state.getD "")
  let h := lowerString (health.getD "")
  let hr := lowerString (healthRollup.getD "")
  if h = "critical" ∨ hr = "critical" then "critical"
  else if h = "warning" ∨ hr = "warning" then "warning"
  else if h = "ok" ∨ hr = "ok" then
    if s = "enabled" then "healthy"
    else if s = "standbyspare" then "standby"
    else "healthy"
  else if s = "absent" ∨ s = "unavailableoffline" then "offline"
  else "unknown"

/-- `IDRACHardwareMonitor._convert_bytes_to_gb` (lines 220-228), with Python
float arithmetic abstracted to exact rationals rounded to 2 decimals.
`0` input models every falsy `size_bytes` (the `.get(..., 0)` default). -/
def _convert_bytes_to_gb (size_bytes : Int) : ℚ :=
  if size_bytes = 0 then 0
  else (round ((size_bytes : ℚ) / (1024 ^ 3 : ℚ) * 100) : ℤ) / 100

/-- One entry of an event-log document (`Members` element of the SEL or LC
log): the fields read by `IDRACHardwareMonitor.get_system_alerts`. -/
structure LogEntry where
  id : Option String
  message : Option String
  severity : Option String
  created : Option String
  messageId : Option String
  entryType : Option String
  sensorType : Option String
  sensorNumber : Option Int
deriving DecidableEq

/-- An event-log document as returned by `get_sel_logs` / `get_lc_logs`:
`members = none` models a document without a `"Members"` key. -/
structure LogDoc where
  members : Option (List LogEntry)
deriving DecidableEq

/-- One alert dict as assembled by `get_system_alerts`. SEL-derived alerts
carry `sensorType`/`sensorNumber` keys (`some _`); LC-derived alerts omit
them (`none`). -/
structure Alert where
  id : String
  message : String
  severity : String
  timestamp : String
  messageId : String
  entryType : String
  sensorType : Option String
  sensorNumber : Option Int
  acknowledged : Bool
deriving DecidableEq

/-- Descending-timestamp ordering used for
`alerts.sort(key=lambda x: x["timestamp"], reverse=True)`. -/
def tsGe (a b : Alert) : Prop := b.timestamp.data ≤ a.timestamp.data

instance : DecidableRel tsGe := fun a b =>
  inferInstanceAs (Decidable (b.timestamp.data ≤ a.timestamp.data))

instance : IsTotal Alert tsGe :=
  ⟨fun a b => le_total b.timestamp.data a.timestamp.data⟩

instance : IsTrans Alert tsGe :=
  ⟨fun _ _ _ hab hbc => le_trans hbc hab⟩

/-- The alert dict built for a qualifying SEL entry (lines 419-429); `idx` is
`len(alerts)` at append time, `sev` the lower-cased severity. -/
def mkSelAlert (e : LogEntry) (idx : Nat) (sev : String) (now : String) : Alert :=
  { id := e.id.getD (toString idx)
    message := e.message.getD "Unknown alert"
    severity := if sev = "" then "information" else sev
    timestamp := e.created.getD now
    messageId := e.messageId.getD ""
    entryType := e.entryType.getD "Event"
    sensorType := some (e.sensorType.getD "")
    sensorNumber := some (e.sensorNumber.getD 0)
    acknowledged := false }

/-- The SEL filtering loop (lines 413-430): append an alert for every entry
with severity critical/warning or entry-type `sel`/`alert`. -/
def selLoop (alerts : List Alert) (entries : List LogEntry) (now : String) :
    List Alert :=
  match entries with
  | [] => alerts
  | e :: es =>
    let sev := lowerString (e.severity.getD "")
    let et := lowerString (e.entryType.getD "")
    if sev = "critical" ∨ sev = "warning" ∨ et = "sel" ∨ et = "alert" then
      selLoop (alerts ++ [mkSelAlert e alerts.length sev now]) es now
    else selLoop alerts es now

/-- The SEL half of `get_system_alerts` (lines 404-437): filter, sort by
timestamp descending, keep the first 20.  Absent document or absent
`"Members"` key leaves the alert list empty. -/
def selPhase (selData : Option LogDoc) (now : String) : List Alert :=
  match selData with
  | none => []
  | some d =>
    match d.members with
    | none => []
    | some ms => (List.insertionSort tsGe (selLoop [] ms now)).take 20

/-- The alert dict built for a qualifying LC-log entry (lines 452-460). -/
def mkLcAlert (e : LogEntry) (idx : Nat) (msg sev : String) (now : String) :
    Alert :=
  { id := "LC_" ++ e.id.getD (toString idx)
    message := msg
    severity := sev
    timestamp := e.created.getD now
    messageId := e.messageId.getD ""
    entryType := "LifecycleLog"
    sensorType := none
    sensorNumber := none
    acknowledged := false }

/-- The LC merging loop (lines 446-461): for each entry, if the severity is
critical/warning and no already-collected alert has the same message text,
append an LC alert. -/
def lcLoop (alerts : List Alert) (entries : List LogEntry) (now : String) :
    List Alert :=
  match entries with
  | [] => alerts
  | e :: es =>
    let sev := lowerString (e.severity.getD "")
    if sev = "critical" ∨ sev = "warning" then
      let msg := e.message.getD ""
      if alerts.any (fun a => a.message == msg) then lcLoop alerts es now
      else lcLoop (alerts ++ [mkLcAlert e alerts.length msg sev now]) es now
    else lcLoop alerts es now

/-- The LC half of `get_system_alerts` (lines 439-461): only the first 10
entries of the LC log are examined (`lc_data["Members"][:10]`). -/
def lcPhase (alerts : List Alert) (lcData : Option LogDoc) (now : String) :
    List Alert :=
  match lcData with
  | none => alerts
  | some d =>
    match d.members with
    | none => alerts
    | some ms => lcLoop alerts (ms.take 10) now

/-- `IDRACHardwareMonitor.get_system_alerts` (lines 400-469), with the two
log documents (the results of `get_sel_logs` / `get_lc_logs`) passed in. The
final list is sorted by timestamp descending and truncated to 20. -/
def get_system_alerts (selData lcData : Option LogDoc) (now : String) :
    List Alert :=
  (List.insertionSort tsGe (lcPhase (selPhase selData now) lcData now)).take 20

/-- `Oem.Dell.DellPhysicalDisk` sub-document of a drive detail. -/
structure DellPhysicalDiskDoc where
  temperature : Option Int
  powerOnHours : Option Int
  predictedMediaLifeLeftPercent : Option Int
  operationPercentComplete : Option Int
deriving DecidableEq

/-- `Oem.Dell` wrapper on a drive detail document. -/
structure DellDiskOem where
  dellPhysicalDisk : Option DellPhysicalDiskDoc
deriving DecidableEq

/-- `Oem` wrapper on a drive detail document. -/
structure DiskOem where
  dell : Option DellDiskOem
deriving DecidableEq

/-- The value of a `"Temperature"` key on a drive detail: the source only
reads `ReadingCelsius` when the value `isinstance(..., dict)`. -/
inductive TempField where
  | notDict
  | dict (readingCelsius : Option Int)
deriving DecidableEq

/-- `PhysicalLocation.PartLocation` sub-document. -/
structure PartLoc where
  serviceLabel : Option String
deriving DecidableEq

/-- `PhysicalLocation` sub-document of a drive detail. -/
structure PhysLoc where
  partLocation : Option PartLoc
deriving DecidableEq

/-- A drive detail document: the fields read by
`get_physical_disks_status` / `_extract_disk_metrics`. -/
structure DriveDoc where
  id : Option String
  name : Option String
  status : Option StatusDoc
  capacityBytes : Option Int
  protocol : Option String
  model : Option String
  serialNumber : Option String
  manufacturer : Option String
  mediaType : Option String
  oem : Option DiskOem
  temperature : Option TempField
  predictedMediaLifeLeftPercent : Option Int
  physicalLocation : Option PhysLoc
deriving DecidableEq

/-- `Oem.Dell.DellVirtualDisk` sub-document of a volume detail. -/
structure DellVirtualDiskDoc where
  raidType : Option String
deriving DecidableEq

/-- `Oem.Dell` wrapper on a volume detail document. -/
structure DellVolOem where
  dellVirtualDisk : Option DellVirtualDiskDoc
deriving DecidableEq

/-- `Oem` wrapper on a volume detail document. -/
structure VolOem where
  dell : Option DellVolOem
deriving DecidableEq

/-- A volume detail document: the fields read by `get_virtual_disks_status`. -/
structure VolumeDoc where
  id : Option String
  name : Option String
  status : Option StatusDoc
  capacityBytes : Option Int
  raidType : Option String
  volumeType : Option String
  oem : Option VolOem
  encrypted : Option Bool
  optimumIOSizeBytes : Option Int
  blockSizeBytes : Option Int
deriving DecidableEq

/-- A member of the storage-controllers collection; the source indexes
`controller_ref["@odata.id"]` directly, so the field is required. -/
structure CtrlRef where
  odataId : String
deriving DecidableEq

/-- The storage-controllers collection document. -/
structure ControllersDoc where
  members : Option (List CtrlRef)
deriving DecidableEq

/-- A controller detail document. A drives/volumes member reference is
`Option String`: `none` models a member that is not a dict or lacks
`"@odata.id"` (skipped by the source). `volumes = some l` models a present
`"Volumes"` key whose `"@odata.id"` is `l`. -/
structure ControllerDoc where
  drives : Option (List (Option String))
  volumes : Option (Option String)
deriving DecidableEq

/-- The document returned by the direct `/Drives` (or `get_physical_disks`)
listing. -/
structure DrivesDoc where
  members : Option (List (Option String))
deriving DecidableEq

/-- The volumes collection document. -/
structure VolumesDoc where
  members : Option (List (Option String))
deriving DecidableEq

/-- `ProcessorSummary` sub-document of the system identity document. -/
structure ProcDoc where
  count : Option Int
  model : Option String
  status : Option StatusDoc
deriving DecidableEq

/-- `MemorySummary` sub-document of the system identity document. -/
structure MemDoc where
  totalSystemMemoryGiB : Option Int
  status : Option StatusDoc
deriving DecidableEq

/-- The system identity document (`/redfish/v1/Systems/System.Embedded.1`). -/
structure SystemDoc where
  name : Option String
  model : Option String
  manufacturer : Option String
  serialNumber : Option String
  powerState : Option String
  biosVersion : Option String
  systemType : Option String
  uuid : Option String
  hostName : Option String
  indicatorLED : Option String
  status : Option StatusDoc
  processorSummary : Option ProcDoc
  memorySummary : Option MemDoc
deriving DecidableEq

/-- The remote side as seen through `IDRACRedfishClient`: one field per
endpoint family, each returning `Option` (`none` = any `_make_request`
failure, 404, or connection-level error).  A completely unreachable remote
is the gateway whose every field is `none` / constantly `none`. -/
structure Gateway where
  systemInfo : Option SystemDoc
  storage : Option ControllersDoc
  simpleStorage : Option ControllersDoc
  controllerDetails : String → Option ControllerDoc
  drivesEndpoint : String → Option DrivesDoc
  driveDetails : String → Option DriveDoc
  volumesCollection : String → Option VolumesDoc
  volumeDetails : String → Option VolumeDoc
  selLogs : Option LogDoc
  lcLogs : Option LogDoc

/-- The endpoint normalisation of `_make_request` (lines 75-76). -/
def normalizeEndpoint (e : String) : String :=
  if e.startsWith "/redfish/v1" then e else "/redfish/v1" ++ e

/-- Python `path.split("/")[-1]`. -/
def lastSegment (s : String) : String := (s.splitOn "/").getLastD ""

/-- `IDRACRedfishClient.get_storage_controllers` (lines 124-131): try the
`Storage` endpoint, fall back to `SimpleStorage`. -/
def get_storage_controllers (g : Gateway) : Option ControllersDoc :=
  match g.storage with
  | some d => some d
  | none => g.simpleStorage

/-- `IDRACRedfishClient.get_physical_disks` (lines 137-146): return the
controller detail's `Drives` as a `Members` wrapper when the key is present,
otherwise fall back to the `/Drives` endpoint. -/
def get_physical_disks (g : Gateway) (controllerId : String) :
    Option DrivesDoc :=
  match g.controllerDetails controllerId with
  | some cd =>
    match cd.drives with
    | some ds => some ⟨some ds⟩
    | none => g.drivesEndpoint controllerId
  | none => g.drivesEndpoint controllerId

/-- `IDRACRedfishClient.get_physical_disk_details` (lines 148-154). -/
def get_physical_disk_details (g : Gateway) (oid : String) : Option DriveDoc :=
  if oid.startsWith "/" then g.driveDetails (normalizeEndpoint oid)
  else
    g.driveDetails
      (normalizeEndpoint ("/redfish/v1/Chassis/System.Embedded.1/Drives/" ++ oid))

/-- `IDRACRedfishClient.get_virtual_disk_details` (lines 169-175): only full
`/`-rooted paths are fetched; anything else yields `None`. -/
def get_virtual_disk_details (g : Gateway) (vref : String) : Option VolumeDoc :=
  if vref.startsWith "/" then g.volumeDetails (normalizeEndpoint vref)
  else none

/-- Value of an optional metric in an output disk dict:
`metrics.get(k, "N/A")` yields a number, a JSON null (when the Dell
sub-document's `.get` produced `None`), or the `"N/A"` sentinel. -/
inductive NVal where
  | num (n : Int)
  | null
  | na
deriving DecidableEq

/-- Collapse a `metrics` slot (outer option = key present in the metrics
dict, inner option = value or `None`) to the output value. -/
def toNVal : Option (Option Int) → NVal
  | none => .na
  | some none => .null
  | some (some n) => .num n

/-- The `metrics` dict built by `_extract_disk_metrics`; each field's outer
`Option` is key presence, the inner is the (possibly `None`) value. -/
structure Metrics where
  temperature : Option (Option Int)
  powerOnHours : Option (Option Int)
  predictiveFailure : Option (Option Int)
  operationPercentComplete : Option (Option Int)
deriving DecidableEq

/-- `IDRACHardwareMonitor._extract_disk_metrics` (lines 230-253). -/
def _extract_disk_metrics (dd : DriveDoc) : Metrics :=
  let m0 : Metrics := ⟨none, none, none, none⟩
  let m1 :=
    match dd.oem with
    | some o =>
      match o.dell with
      | some dl =>
        match dl.dellPhysicalDisk with
        | some di =>
          { temperature := some di.temperature
            powerOnHours := some di.powerOnHours
            predictiveFailure := some di.predictedMediaLifeLeftPercent
            operationPercentComplete := some di.operationPercentComplete }
        | none => m0
      | none => m0
    | none => m0
  let m2 :=
    match dd.temperature with
    | some (.dict r) => { m1 with temperature := some r }
    | _ => m1
  match dd.predictedMediaLifeLeftPercent with
  | some v => { m2 with predictiveFailure := some (some v) }
  | none => m2

/-- One physical-disk dict of a snapshot (lines 304-319). -/
structure PhysicalDisk where
  id : String
  name : String
  status : String
  size : ℚ
  interface : String
  model : String
  serialNumber : String
  manufacturer : String
  mediaType : String
  location : String
  temperature : NVal
  powerOnHours : NVal
  predictiveFailure : NVal
  lastUpdated : String
deriving DecidableEq

/-- Assembly of one physical-disk dict from a drive detail document
(lines 292-319). -/
def buildPhysicalDisk (dd : DriveDoc) (oid : String) (now : String) :
    PhysicalDisk :=
  let metrics := _extract_disk_metrics dd
  { id := dd.id.getD (lastSegment oid)
    name := dd.name.getD "Unknown"
    status := _normalize_status dd.status
    size := _convert_bytes_to_gb (dd.capacityBytes.getD 0)
    interface := dd.protocol.getD "Unknown"
    model := dd.model.getD "Unknown"
    serialNumber := dd.serialNumber.getD "Unknown"
    manufacturer := dd.manufacturer.getD "Unknown"
    mediaType := dd.mediaType.getD "Unknown"
    location :=
      match dd.physicalLocation with
      | some pl =>
        match pl.partLocation with
        | some part => part.serviceLabel.getD "Unknown"
        | none => "Unknown"
      | none => "Unknown"
    temperature := toNVal metrics.temperature
    powerOnHours := toNVal metrics.powerOnHours
    predictiveFailure := toNVal metrics.predictiveFailure
    lastUpdated := now }

/-- The per-controller body of the `get_physical_disks_status` loop
(lines 265-321): resolve the drive list (controller detail first, `/Drives`
fallback when empty or missing), then build a disk per resolvable drive
reference, skipping refs without `@odata.id` and refs whose detail fetch
fails. -/
def controllerDisks (g : Gateway) (ref : CtrlRef) (now : String) :
    List PhysicalDisk :=
  let controllerId := lastSegment ref.odataId
  match g.controllerDetails controllerId with
  | none => []
  | some details =>
    let drives0 := details.drives.getD []
    let drives :=
      if drives0.isEmpty then
        match get_physical_disks g controllerId with
        | some dd =>
          match dd.members with
          | some ms => ms
          | none => drives0
        | none => drives0
      else drives0
    drives.filterMap fun dref =>
      dref.bind fun oid =>
        (get_physical_disk_details g oid).map fun dd =>
          buildPhysicalDisk dd oid now

/-- `IDRACHardwareMonitor.get_physical_disks_status` (lines 255-323). -/
def get_physical_disks_status (g : Gateway) (now : String) :
    List PhysicalDisk :=
  match get_storage_controllers g with
  | none => []
  | some cdoc =>
    match cdoc.members with
    | none => []
    | some refs => refs.foldl (fun acc ref => acc ++ controllerDisks g ref now) []

/-- One virtual-disk dict of a snapshot (lines 380-390). -/
structure VirtualDisk where
  id : String
  name : String
  status : String
  size : ℚ
  raidLevel : String
  encrypted : Bool
  optimumIOSize : Option Int
  blockSizeBytes : Option Int
  lastUpdated : String
deriving DecidableEq

/-- The RAID-level fallback chain of `get_virtual_disks_status`
(lines 369-378), exactly as the source branches. -/
def extractRaidType (vd : VolumeDoc) : String :=
  let r0 := vd.raidType.getD "Unknown"
  let r1 :=
    if r0 = "Unknown" then
      match vd.volumeType with
      | some v => v
      | none => r0
    else r0
  if r1 = "Unknown" then
    match vd.oem with
    | some o =>
      match o.dell with
      | some dl =>
        match dl.dellVirtualDisk with
        | some dvd => dvd.raidType.getD "Unknown"
        | none => r1
      | none => r1
    | none => r1
  else r1

/-- Modelled from the spec (§3): RAID level "resolved through a fallback
chain: direct field → volume-type field → vendor-extension field →
Unknown". Written from the spec's words, to be compared with
`extractRaidType` which is translated from the code. -/
def raidLevelSpec (vd : VolumeDoc) : String :=
  let a := vd.raidType.getD "Unknown"
  if a ≠ "Unknown" then a
  else
    let b := vd.volumeType.getD "Unknown"
    if b ≠ "Unknown" then b
    else
      ((((vd.oem.bind VolOem.dell).bind DellVolOem.dellVirtualDisk).bind
        DellVirtualDiskDoc.raidType).getD "Unknown")

/-- Assembly of one virtual-disk dict from a volume detail document
(lines 365-390). -/
def buildVirtualDisk (vd : VolumeDoc) (vref : String) (now : String) :
    VirtualDisk :=
  { id := vd.id.getD (lastSegment vref)
    name := vd.name.getD "Unknown"
    status := _normalize_status vd.status
    size := _convert_bytes_to_gb (vd.capacityBytes.getD 0)
    raidLevel := extractRaidType vd
    encrypted := vd.encrypted.getD false
    optimumIOSize := vd.optimumIOSizeBytes
    blockSizeBytes := vd.blockSizeBytes
    lastUpdated := now }

/-- The per-volume-reference body of the volumes loop (lines 354-392): skip
references without `@odata.id` and references whose detail fetch yields
nothing. -/
def processVolume (g : Gateway) (now : String) (vref? : Option String) :
    Option VirtualDisk :=
  vref?.bind fun vref =>
    (get_virtual_disk_details g vref).map fun vd => buildVirtualDisk vd vref now

/-- The per-controller body of `get_virtual_disks_status` (lines 335-396). -/
def controllerVolumes (g : Gateway) (ref : CtrlRef) (now : String) :
    List VirtualDisk :=
  let controllerId := lastSegment ref.odataId
  match g.controllerDetails controllerId with
  | none => []
  | some details =>
    match details.volumes with
    | none => []
    | some volumesLink =>
      match volumesLink with
      | none => []
      | some link =>
        match g.volumesCollection (normalizeEndpoint link) with
        | none => []
        | some vdoc =>
          match vdoc.members with
          | none => []
          | some vrefs => vrefs.filterMap (processVolume g now)

/-- `IDRACHardwareMonitor.get_virtual_disks_status` (lines 325-398). -/
def get_virtual_disks_status (g : Gateway) (now : String) : List VirtualDisk :=
  match get_storage_controllers g with
  | none => []
  | some cdoc =>
    match cdoc.members with
    | none => []
    | some refs =>
      refs.foldl (fun acc ref => acc ++ controllerVolumes g ref now) []

/-- The value stored under `"processorSummary"` when the identity document
carries a `ProcessorSummary` (lines 510-516). -/
structure ProcOut where
  count : Int
  model : String
  status : String
deriving DecidableEq

/-- The value stored under `"memorySummary"` when the identity document
carries a `MemorySummary` (lines 518-525). -/
structure MemOut where
  totalSystemMemoryGiB : Int
  status : String
deriving DecidableEq

/-- The `server_info` dict of a snapshot.  Every field is `Option`-valued:
`none` models an absent key.  The summaries are doubly optional: the outer
`Option` is key presence, `some none` models the empty dict `{}` that the
base record installs, `some (some _)` a populated summary. -/
structure ServerInfoDict where
  name : Option String
  model : Option String
  manufacturer : Option String
  serialNumber : Option String
  powerState : Option String
  biosVersion : Option String
  systemType : Option String
  uuid : Option String
  hostName : Option String
  indicatorLED : Option String
  status : Option String
  processorSummary : Option (Option ProcOut)
  memorySummary : Option (Option MemOut)
  lastUpdated : Option String
deriving DecidableEq

/-- The base `server_info` dict (lines 482-492): note that `systemType`,
`uuid`, `hostName`, `indicatorLED` and `status` are NOT among its keys. -/
def baseServerInfo (now : String) : ServerInfoDict :=
  { name := some "Unknown"
    model := some "Unknown"
    manufacturer := some "Unknown"
    serialNumber := some "Unknown"
    powerState := some "Unknown"
    biosVersion := some "Unknown"
    systemType := none
    uuid := none
    hostName := none
    indicatorLED := none
    status := none
    processorSummary := some none
    memorySummary := some none
    lastUpdated := some now }

/-- The `server_info` assembly of `get_full_hardware_status`
(lines 482-525): start from the base dict; when the identity document is
available, `update` the identity keys and conditionally the two summaries. -/
def buildServerInfo (sysInfo : Option SystemDoc) (now : String) :
    ServerInfoDict :=
  let base := baseServerInfo now
  match sysInfo with
  | none => base
  | some si =>
    let s1 :=
      { base with
        name := some (si.name.getD "Unknown")
        model := some (si.model.getD "Unknown")
        manufacturer := some (si.manufacturer.getD "Unknown")
        serialNumber := some (si.serialNumber.getD "Unknown")
        powerState := some (si.powerState.getD "Unknown")
        biosVersion := some (si.biosVersion.getD "Unknown")
        systemType := some (si.systemType.getD "Physical")
        uuid := some (si.uuid.getD "")
        hostName := some (si.hostName.getD "")
        indicatorLED := some (si.indicatorLED.getD "")
        status := some (_normalize_status si.status) }
    let s2 :=
      match si.processorSummary with
      | some ps =>
        { s1 with
          processorSummary :=
            some (some
              { count := ps.count.getD 0
                model := ps.model.getD "Unknown"
                status := _normalize_status ps.status }) }
      | none => s1
    match si.memorySummary with
    | some ms =>
      { s2 with
        memorySummary :=
          some (some
            { totalSystemMemoryGiB := ms.totalSystemMemoryGiB.getD 0
              status := _normalize_status ms.status }) }
    | none => s2

/-- The aggregate returned by `get_full_hardware_status` (lines 543-550). -/
structure Snapshot where
  serverInfo : ServerInfoDict
  physicalDisks : List PhysicalDisk
  virtualDisks : List VirtualDisk
  alerts : List Alert
  lastRefresh : String
  collectionTimeSeconds : ℚ
deriving DecidableEq

/-- `IDRACHardwareMonitor.get_full_hardware_status` (lines 471-550) — the
spec's `collect()`.  `now` stands for the wall-clock ISO timestamps and
`elapsed` for the measured collection duration. -/
def get_full_hardware_status (g : Gateway) (now : String) (elapsed : ℚ) :
    Snapshot :=
  { serverInfo := buildServerInfo g.systemInfo now
    physicalDisks := get_physical_disks_status g now
    virtualDisks := get_virtual_disks_status g now
    alerts := get_system_alerts g.selLogs g.lcLogs now
    lastRefresh := now
    collectionTimeSeconds := elapsed }

/-- The completely unreachable remote: every request fails at the connection
level, which `_make_request` maps to `None` on every endpoint. -/
def gatewayUnreachable : Gateway :=
  { systemInfo := none
    storage := none
    simpleStorage := none
    controllerDetails := fun _ => none
    drivesEndpoint := fun _ => none
    driveDetails := fun _ => none
    volumesCollection := fun _ => none
    volumeDetails := fun _ => none
    selLogs := none
    lcLogs := none }

/-- An identity document with every key absent. -/
def emptySystemDoc : SystemDoc :=
  { name := none, model := none, manufacturer := none, serialNumber := none
    powerState := none, biosVersion := none, systemType := none, uuid := none
    hostName := none, indicatorLED := none, status := none
    processorSummary := none, memorySummary := none }

/-! ### Models of `backend/main.py` -/

/-- Python truthiness of the `server_info` dict: non-empty iff it has at
least one key.  (`update_hardware_data` tests `data.get("serverInfo")`.) -/
def serverInfoTruthy (si : ServerInfoDict) : Bool :=
  si.name.isSome || si.model.isSome || si.manufacturer.isSome ||
  si.serialNumber.isSome || si.powerState.isSome || si.biosVersion.isSome ||
  si.systemType.isSome || si.uuid.isSome || si.hostName.isSome ||
  si.indicatorLED.isSome || si.status.isSome || si.processorSummary.isSome ||
  si.memorySummary.isSome || si.lastUpdated.isSome

/-- `if data and data.get("serverInfo")` (main.py line 115 / line 68):
the snapshot dict itself is always non-empty, so usability is the
truthiness of its `serverInfo` value. -/
def usableData (d : Snapshot) : Bool := serverInfoTruthy d.serverInfo

/-- Outcome of one call to `hardware_monitor.get_full_hardware_status()`
as seen by `main.py`: the call either raises or returns a snapshot. -/
inductive FetchOutcome where
  | raises
  | returns (d : Snapshot)
deriving DecidableEq

/-- The module-level cache of `main.py`: `cached_hardware_data` and
`last_update_time` (wall-clock stored as an integer second count). -/
structure CacheSt where
  data : Option Snapshot
  storedAt : Option Int
deriving DecidableEq

/-- `update_hardware_data` (main.py lines 100-137): on a raising fetch or
unusable data the cache is untouched and `False` is returned; on usable data
the cache and its stored-time are replaced and `True` is returned.
`monitorPresent` models `hardware_monitor` being initialised. -/
def update_hardware_data (monitorPresent : Bool) (fetch : FetchOutcome)
    (st : CacheSt) (now : Int) : CacheSt × Bool :=
  if !monitorPresent then (st, false)
  else
    match fetch with
    | .raises => (st, false)
    | .returns d =>
      if usableData d then ({ data := some d, storedAt := some now }, true)
      else (st, false)

/-- `cache_age = (datetime.now() - last_update_time).total_seconds()`
(main.py lines 224-225, 275-276, 422-423). -/
def cacheAge (st : CacheSt) (now : Int) : Option Int :=
  st.storedAt.map (fun t => now - t)

/-- One steady-state iteration of `monitoring_worker` (main.py lines
162-171): a successful update resets the consecutive-failure counter; a
failed one increments it, and on reaching the threshold 5 the full
reconnect/initialisation sequence runs (modelled by the returned flag) and
the counter resets no matter what the reconnect returned
(`reconnectOutcome` is never consulted). -/
def workerStep (c : Nat) (success : Bool) (reconnectOutcome : Bool) :
    Nat × Bool :=
  if success then (0, false)
  else
    let c' := c + 1
    if 5 ≤ c' then
      let _ := reconnectOutcome
      (0, true)
    else (c', false)

/-- A run of steady-state iterations; each pair is (update succeeded,
outcome the reconnect would return).  Produces the final counter and the
per-cycle reconnect flags. -/
def workerRun (c : Nat) (cycles : List (Bool × Bool)) : Nat × List Bool :=
  match cycles with
  | [] => (c, [])
  | (s, r) :: rest =>
    let (c', flag) := workerStep c s r
    let (cf, flags) := workerRun c' rest
    (cf, flag :: flags)

/-- Outcome of one connection attempt inside `initialize_idrac_client`:
constructing the client / fetching raises, or a snapshot is returned. -/
inductive InitAttempt where
  | raises
  | returns (d : Snapshot)
deriving DecidableEq

/-- The process state touched by `initialize_idrac_client`: the cache plus
the two `threading.Event`s. -/
structure AppSt where
  cache : Option Snapshot
  storedAt : Option Int
  initComplete : Bool
  initialFetched : Bool
deriving DecidableEq

/-- `initialize_idrac_client` (main.py lines 46-97) over the list of attempt
outcomes (the source runs `max_retries = 3` attempts; inter-attempt sleeps
are timing-only).  First usable fetch: cache it, set both events, return
`True`.  Exhausted attempts: set `initialization_complete` anyway, leave the
cache and `initial_data_fetched` untouched, return `False`. -/
def initialize_idrac_client (attempts : List InitAttempt) (st : AppSt)
    (now : Int) : AppSt × Bool :=
  match attempts with
  | [] => ({ st with initComplete := true }, false)
  | a :: rest =>
    match a with
    | .raises => initialize_idrac_client rest st now
    | .returns d =>
      if usableData d then
        ({ st with
            cache := some d
            storedAt := some now
            initComplete := true
            initialFetched := true }, true)
      else initialize_idrac_client rest st now

/-- Response shapes of `GET /api/server/status` (main.py lines 241-288). -/
inductive StatusResp where
  | initializing
  | unavailableEmpty
  | data (snap : Snapshot) (cachedAt : Option Int) (ageWarning : Option Int)
deriving DecidableEq

/-- `get_server_status` (main.py lines 241-288).  `gateOpened` is the result
of `initialization_complete.wait(timeout=10)`; `fetch`/`monitorPresent` feed
the one manual `update_hardware_data` retry taken when the cache is empty;
`refreshInterval` is `Config.REFRESH_INTERVAL`.  On a wait timeout the
endpoint answers the distinguishable 202 "still initializing" body without
touching any data. -/
def get_server_status (gateOpened : Bool) (monitorPresent : Bool)
    (fetch : FetchOutcome) (st : CacheSt) (now : Int)
    (refreshInterval : Int) : StatusResp :=
  if !gateOpened then .initializing
  else
    let warn (stArg : CacheSt) : Option Int :=
      match stArg.storedAt with
      | some t => if refreshInterval * 3 < now - t then some (now - t) else none
      | none => none
    match st.data with
    | some snap => .data snap st.storedAt (warn st)
    | none =>
      let (st', ok) := update_hardware_data monitorPresent fetch st now
      match st'.data, ok with
      | some snap, true => .data snap st'.storedAt (warn st')
      | _, _ => .unavailableEmpty

/-! ### Concrete fixtures for the end-to-end scenarios -/

/-- Two-digit zero-padded decimal, so that lexicographic order on the
timestamp strings agrees with numeric order. -/
def pad2 (i : Nat) : String := if i < 10 then "0" ++ toString i else toString i

/-- The `i`-th qualifying SEL entry of scenario C: severity `Critical`,
message `M<i>`, timestamp `T<i>`. -/
def selEntryC (i : Nat) : LogEntry :=
  { id := some ("S" ++ toString i)
    message := some ("M" ++ pad2 i)
    severity := some "Critical"
    created := some ("T" ++ pad2 i)
    messageId := none
    entryType := some "SEL"
    sensorType := none
    sensorNumber := some 1 }

/-- Scenario C primary log: 25 qualifying entries. -/
def selDocC : LogDoc := ⟨some ((List.range 25).map selEntryC)⟩

/-- A qualifying LC-log entry with the given id, message and timestamp. -/
def lcEntryC (idS msg created : String) : LogEntry :=
  { id := some idS
    message := some msg
    severity := some "Critical"
    created := some created
    messageId := none
    entryType := none
    sensorType := none
    sensorNumber := none }

/-- Scenario C secondary log: 3 qualifying entries, the first of which
duplicates the message `M24` of a kept primary entry. -/
def lcDocC : LogDoc :=
  ⟨some [lcEntryC "L1" "M24" "T30", lcEntryC "L2" "XA" "T29",
         lcEntryC "L3" "XB" "T28"]⟩

/-- The merged alert list of scenario C. -/
def alertsC : List Alert := get_system_alerts (some selDocC) (some lcDocC) "TZ"

/-- The best-effort snapshot collected from the completely unreachable
remote at wall-clock `"T"`. -/
def sentinelSnapshot : Snapshot := get_full_hardware_status gatewayUnreachable "T" 0

/-! ## Helper lemmas -/

theorem lcLoop_extends (es : List LogEntry) (alerts : List Alert)
    (now : String) :
    ∃ s, lcLoop alerts es now = alerts ++ s ∧
      ∀ a ∈ s, a.message ∉ alerts.map Alert.message := by
  induction es generalizing alerts with
  | nil => exact ⟨[], by simp [lcLoop]⟩
  | cons e es ih =>
    by_cases hsev : lowerString (e.severity.getD "") = "critical" ∨
        lowerString (e.severity.getD "") = "warning"
    · by_cases hdup :
          alerts.any (fun a => a.message == e.message.getD "") = true
      · obtain ⟨s, heq, hs⟩ := ih alerts
        exact ⟨s, by simpa [lcLoop, hsev, hdup] using heq, hs⟩
      · set x := mkLcAlert e alerts.length (e.message.getD "")
          (lowerString (e.severity.getD "")) now with hx
        obtain ⟨s, heq, hs⟩ := ih (alerts ++ [x])
        refine ⟨x :: s, ?_, ?_⟩
        · have : lcLoop alerts (e :: es) now = lcLoop (alerts ++ [x]) es now := by
            simp [lcLoop, hsev, hdup, hx]
          rw [this, heq, List.append_assoc]
          rfl
        · intro a ha
          rcases List.mem_cons.mp ha with h | h
          · subst h
            intro hmem
            obtain ⟨b, hb, hbm⟩ := List.mem_map.mp hmem
            have hall : ∀ x ∈ alerts, ¬ x.message = e.message.getD "" := by
              simpa using hdup
            exact hall b hb (by simpa [hx, mkLcAlert] using hbm)
          · have := hs a h
            simp only [List.map_append, List.mem_append] at this
            intro hmem
            exact this (Or.inl hmem)
    · obtain ⟨s, heq, hs⟩ := ih alerts
      exact ⟨s, by simpa [lcLoop, hsev] using heq, hs⟩

theorem lcPhase_extends (alerts : List Alert) (lcData : Option LogDoc)
    (now : String) :
    ∃ s, lcPhase alerts lcData now = alerts ++ s ∧
      ∀ a ∈ s, a.message ∉ alerts.map Alert.message := by
  match lcData with
  | none => exact ⟨[], by simp [lcPhase]⟩
  | some d =>
    match hd : d.members with
    | none => exact ⟨[], by simp [lcPhase, hd]⟩
    | some ms =>
      obtain ⟨s, heq, hs⟩ := lcLoop_extends (ms.take 10) alerts now
      exact ⟨s, by simpa [lcPhase, hd] using heq, hs⟩

/-! ## Claim theorems -/

/-- C3: for every pair of event-log documents and any ordering or number of
raw entries in them, the alert list returned by `get_system_alerts` (hence
the `alerts` field of every snapshot from `get_full_hardware_status`)
contains at most 20 entries and is sorted by timestamp in descending
order. -/
theorem alerts_capped_at_20_and_sorted_desc :
    ∀ selData lcData now,
      (get_system_alerts selData lcData now).length ≤ 20 ∧
      List.Sorted tsGe (get_system_alerts selData lcData now) := by
  intro selData lcData now
  refine ⟨?_, ?_⟩
  · exact List.length_take_le 20
      (List.insertionSort tsGe (lcPhase (selPhase selData now) lcData now))
  · exact (List.sorted_insertionSort tsGe
      (lcPhase (selPhase selData now) lcData now)).sublist
      (List.take_sublist 20 _)

/-- C4: an LC-log entry whose message text matches the message of an alert
already collected (in particular one taken from the primary SEL source) is
excluded: the LC phase only ever appends, and every appended alert's message
is absent from the messages already present.  Concretely (scenario C): with
25 qualifying primary entries and 3 secondary entries of which one
duplicates a kept primary message, the final list has exactly 20 entries,
newest first, with exactly 2 entries from the secondary source and a single
occurrence of the duplicated message. -/
theorem alerts_dedup_and_scenario_c :
    (∀ alerts lcData now,
      (lcPhase alerts lcData now).take alerts.length = alerts ∧
      ∀ a ∈ (lcPhase alerts lcData now).drop alerts.length,
        a.message ∉ alerts.map Alert.message) ∧
    (alertsC.length = 20 ∧ List.Sorted tsGe alertsC ∧
     alertsC.countP (fun a => a.entryType == "LifecycleLog") = 2 ∧
     alertsC.countP (fun a => a.message == "M24") = 1) := by
  constructor
  · intro alerts lcData now
    obtain ⟨s, heq, hs⟩ := lcPhase_extends alerts lcData now
    rw [heq]
    constructor
    · exact List.take_left alerts s
    · intro a ha
      exact hs a (by simpa [List.drop_left] using ha)
  · exact ⟨by decide, by decide, by decide, by decide⟩

/-- C4 witness: in scenario C, the secondary-source alert carrying message
`"XA"` sits in the appended (LC) portion of the merged list, and its message
does not occur among the 20 alerts kept from the primary source. -/
theorem alerts_dedup_witness :
    (mkLcAlert (lcEntryC "L2" "XA" "T29") 20 "XA" "critical" "TZ").message ∉
      (selPhase (some selDocC) "TZ").map Alert.message :=
  (alerts_dedup_and_scenario_c.1 (selPhase (some selDocC) "TZ")
      (some lcDocC) "TZ").2
    (mkLcAlert (lcEntryC "L2" "XA" "T29") 20 "XA" "critical" "TZ")
    (by decide)

/-- C10 (implicit): `get_system_alerts` examines only the first 10 entries
of the secondary (LC) log source — the result is invariant under truncating
the LC members to 10, so a qualifying entry at position 11 or later can
never be included, regardless of its timestamp or severity. -/
theorem lc_log_only_first_ten_examined :
    ∀ selData (ms : List LogEntry) now,
      get_system_alerts selData (some ⟨some ms⟩) now =
        get_system_alerts selData (some ⟨some (ms.take 10)⟩) now := by
  intro selData ms now
  simp [get_system_alerts, lcPhase, List.take_take]

/-- C2: `_normalize_status` is a total deterministic function (it is a Lean
function) which, for every triple `(state, health, healthRollup)` of
present-or-absent strings, case-folds its inputs (absent read as the empty
string) and returns the canonical status of the first matching rule in the
spec's precedence order — `normalizeSpec` is written from the spec's §4.1
wording.  In particular `health="Critical"`, `state="Enabled"` yields
`"critical"`, not `"healthy"`. -/
theorem normalize_total_first_match_precedence :
    (∀ state health healthRollup : Option String,
      _normalize_status (some ⟨state, health, healthRollup⟩) =
        normalizeSpec state health healthRollup) ∧
    _normalize_status none = normalizeSpec none none none ∧
    _normalize_status (some ⟨some "Enabled", some "Critical", none⟩) =
      "critical" :=
  ⟨fun _ _ _ => rfl, by decide, by decide⟩

/-- C9: for every volume detail document, the RAID level of the built
virtual disk follows the ordered fallback chain of the spec (direct
`RAIDType` field, then `VolumeType`, then `Oem.Dell.DellVirtualDisk.RAIDType`,
else `"Unknown"` — `raidLevelSpec` is written from the spec's words), and a
volume reference whose detail document is missing is skipped silently: the
volume loop's output with such a reference equals the output without it. -/
theorem raid_fallback_chain_and_missing_detail_skipped :
    ∀ (vd : VolumeDoc) (vref now : String) (g : Gateway)
      (pre post : List (Option String)) (r : String),
      get_virtual_disk_details g r = none →
      (buildVirtualDisk vd vref now).raidLevel = raidLevelSpec vd ∧
      (pre ++ some r :: post).filterMap (processVolume g now) =
        (pre ++ post).filterMap (processVolume g now) := by
  intro vd vref now g pre post r hr
  constructor
  · show extractRaidType vd = raidLevelSpec vd
    rcases vd with ⟨vid, vname, vst, vcb, vrt, vvt, voem, venc, voio, vbsb⟩
    unfold extractRaidType raidLevelSpec
    dsimp only
    by_cases h0 : vrt.getD "Unknown" = "Unknown"
    · rcases vvt with _ | v
      · rcases voem with _ | ⟨_ | ⟨_ | ⟨rt2⟩⟩⟩ <;> simp [h0]
      · by_cases hv : v = "Unknown"
        · rcases voem with _ | ⟨_ | ⟨_ | ⟨rt2⟩⟩⟩ <;> simp [h0, hv]
        · simp [h0, hv]
    · simp [h0]
  · simp [List.filterMap_append, processVolume, hr]

/-- C9 witness: the RAID chain evaluated on a document carrying only the
vendor-extension field, and the skip of the sole (fetch-failing) volume
reference of the unreachable remote. -/
theorem raid_fallback_witness :
    (buildVirtualDisk
        { id := none, name := none, status := none, capacityBytes := none
          raidType := none, volumeType := none
          oem := some ⟨some ⟨some ⟨some "RAID10"⟩⟩⟩
          encrypted := none, optimumIOSizeBytes := none
          blockSizeBytes := none } "/vols/Disk.Virtual.0" "T").raidLevel =
      raidLevelSpec
        { id := none, name := none, status := none, capacityBytes := none
          raidType := none, volumeType := none
          oem := some ⟨some ⟨some ⟨some "RAID10"⟩⟩⟩
          encrypted := none, optimumIOSizeBytes := none
          blockSizeBytes := none } ∧
    ([some "/vols/Disk.Virtual.0"].filterMap
        (processVolume gatewayUnreachable "T")) =
      ([] : List (Option String)).filterMap
        (processVolume gatewayUnreachable "T") := by
  have h := raid_fallback_chain_and_missing_detail_skipped
    { id := none, name := none, status := none, capacityBytes := none
      raidType := none, volumeType := none
      oem := some ⟨some ⟨some ⟨some "RAID10"⟩⟩⟩
      encrypted := none, optimumIOSizeBytes := none, blockSizeBytes := none }
    "/vols/Disk.Virtual.0" "T" gatewayUnreachable [] []
    "/vols/Disk.Virtual.0"
    (by unfold get_virtual_disk_details gatewayUnreachable; split <;> rfl)
  exact ⟨h.1, h.2⟩

/-- C1 counterexample: when the remote is completely unreachable (every
request fails at the gateway level, so every endpoint yields no document),
`get_full_hardware_status` does NOT fail — it returns a complete best-effort
snapshot with the sentinel base `server_info` and empty disk and alert
lists.  This refutes "collect() fails (as AggregationFailed, returning no
Snapshot) if the remote is completely unreachable": `_make_request` catches
every connection-level exception and maps it to `None`, so no failure can
escape `get_full_hardware_status`. -/
theorem collect_unreachable_counterexample :
    get_full_hardware_status gatewayUnreachable "T" 0 =
      { serverInfo := baseServerInfo "T", physicalDisks := []
        virtualDisks := [], alerts := [], lastRefresh := "T"
        collectionTimeSeconds := 0 } := rfl

/-- C1 (amended): `get_full_hardware_status` never fails, not even when the
remote is completely unreachable at the gateway level: in that case it
returns the best-effort snapshot with sentinel `server_info` and empty disk
and alert lists, and whenever just the identity fetch is unavailable the
snapshot's `server_info` is exactly the sentinel base record (the rest of
the snapshot still being collected); no gateway-level or sub-resource-level
error escapes the aggregator. -/
theorem collect_never_fails_best_effort :
    (∀ now elapsed,
      get_full_hardware_status gatewayUnreachable now elapsed =
        { serverInfo := baseServerInfo now, physicalDisks := []
          virtualDisks := [], alerts := [], lastRefresh := now
          collectionTimeSeconds := elapsed }) ∧
    (∀ g now elapsed, g.systemInfo = none →
      (get_full_hardware_status g now elapsed).serverInfo =
        baseServerInfo now) := by
  refine ⟨fun now elapsed => rfl, fun g now elapsed h => ?_⟩
  simp [get_full_hardware_status, buildServerInfo, h]

/-- C1 witness: the amended statement applied to the unreachable remote at
wall-clock `"T"` with a measured duration of `0`. -/
theorem collect_never_fails_witness :
    (get_full_hardware_status gatewayUnreachable "T" 0).serverInfo =
      baseServerInfo "T" :=
  collect_never_fails_best_effort.2 gatewayUnreachable "T" 0 rfl

/-- C5 counterexample: with a wholly absent identity document, the
`server_info` record produced by `get_full_hardware_status` does NOT contain
all of its declared fields — the `status`, `uuid`, `hostName` and
`indicatorLED` keys are absent (only the `if system_info:` branch ever adds
them), refuting "the ServerInfo record contains all of its declared fields
… rather than being an absent key". -/
theorem serverInfo_absent_keys_counterexample :
    (buildServerInfo none "T").status = none ∧
    (buildServerInfo none "T").uuid = none ∧
    (buildServerInfo none "T").hostName = none ∧
    (buildServerInfo none "T").indicatorLED = none :=
  ⟨rfl, rfl, rfl, rfl⟩

/-- C5 (amended): when the identity document is present (whatever fields it
omits), the `server_info` record carries all declared fields, each
defaulting to its sentinel ("Unknown", the empty string, "Physical",
normalized "unknown", or the empty summary dict) when the source omits it;
when the identity document is wholly absent, only the base fields (name,
model, manufacturer, serial number, power state, BIOS version, the two
summaries and the timestamp) are present with sentinels, while `systemType`,
`uuid`, `hostName`, `indicatorLED` and `status` are absent keys. -/
theorem serverInfo_fields_amended :
    (∀ si now,
      ((buildServerInfo (some si) now).name).isSome = true ∧
      ((buildServerInfo (some si) now).model).isSome = true ∧
      ((buildServerInfo (some si) now).manufacturer).isSome = true ∧
      ((buildServerInfo (some si) now).serialNumber).isSome = true ∧
      ((buildServerInfo (some si) now).powerState).isSome = true ∧
      ((buildServerInfo (some si) now).biosVersion).isSome = true ∧
      ((buildServerInfo (some si) now).systemType).isSome = true ∧
      ((buildServerInfo (some si) now).uuid).isSome = true ∧
      ((buildServerInfo (some si) now).hostName).isSome = true ∧
      ((buildServerInfo (some si) now).indicatorLED).isSome = true ∧
      ((buildServerInfo (some si) now).status).isSome = true ∧
      ((buildServerInfo (some si) now).processorSummary).isSome = true ∧
      ((buildServerInfo (some si) now).memorySummary).isSome = true ∧
      ((buildServerInfo (some si) now).lastUpdated).isSome = true) ∧
    (∀ now,
      buildServerInfo (some emptySystemDoc) now =
        { name := some "Unknown", model := some "Unknown"
          manufacturer := some "Unknown", serialNumber := some "Unknown"
          powerState := some "Unknown", biosVersion := some "Unknown"
          systemType := some "Physical", uuid := some ""
          hostName := some "", indicatorLED := some ""
          status := some "unknown", processorSummary := some none
          memorySummary := some none, lastUpdated := some now }) ∧
    (∀ now,
      buildServerInfo none now =
        { name := some "Unknown", model := some "Unknown"
          manufacturer := some "Unknown", serialNumber := some "Unknown"
          powerState := some "Unknown", biosVersion := some "Unknown"
          systemType := none, uuid := none, hostName := none
          indicatorLED := none, status := none, processorSummary := some none
          memorySummary := some none, lastUpdated := some now }) := by
  refine ⟨fun si now => ?_, fun now => rfl, fun now => rfl⟩
  cases hp : si.processorSummary <;> cases hm : si.memorySummary <;>
    simp [buildServerInfo, baseServerInfo, hp, hm]

/-- C6: in the `monitoring_worker` loop, a successful cycle resets the
consecutive-failure counter to zero; a failed cycle increments it; when the
counter reaches the threshold 5 the reconnect/initialisation sequence runs
(the returned flag) and the counter resets to zero irrespective of the
reconnect's outcome (the outcome argument is immaterial).  Along any trace
started below the threshold the counter stays below 5, and the concrete
traces show: four straight failures count up to 4 with no reconnect, a fifth
triggers exactly one reconnect and resets to 0, and a failure followed by a
success is back at 0 with no reconnect. -/
theorem poller_counter_and_reconnect :
    (∀ c r, workerStep c true r = (0, false)) ∧
    (∀ c r, c + 1 < 5 → workerStep c false r = (c + 1, false)) ∧
    (∀ c r, 5 ≤ c + 1 → workerStep c false r = (0, true)) ∧
    (∀ c s r r', workerStep c s r = workerStep c s r') ∧
    (∀ cycles c, c < 5 → (workerRun c cycles).1 < 5) ∧
    (∀ b b2,
      workerRun 0 (List.replicate 4 (false, b)) =
        (4, [false, false, false, false]) ∧
      workerRun 0 (List.replicate 5 (false, b)) =
        (0, [false, false, false, false, true]) ∧
      workerRun 0 [(false, b), (true, b2)] = (0, [false, false])) := by
  refine ⟨fun c r => rfl, ?_, ?_, fun c s r r' => rfl, ?_, fun b b2 => ⟨rfl, rfl, rfl⟩⟩
  · intro c r h
    simp [workerStep, Nat.not_le.mpr h]
  · intro c r h
    simp [workerStep, h]
  · intro cycles
    induction cycles with
    | nil => intro c h; simpa [workerRun] using h
    | cons p rest ih =>
      intro c h
      obtain ⟨s, r⟩ := p
      cases s with
      | true => simpa [workerRun, workerStep] using ih 0 (by omega)
      | false =>
        by_cases h5 : 5 ≤ c + 1
        · simpa [workerRun, workerStep, h5] using ih 0 (by omega)
        · simpa [workerRun, workerStep, h5] using ih (c + 1) (by omega)

/-- C6 witness: the three hypothesis-bearing parts applied at concrete
counters: a fourth straight failure counts to 4 without reconnecting, the
fifth (counter 4) reconnects and resets, and any trace started at 1 keeps
the counter below 5. -/
theorem poller_counter_witness :
    workerStep 3 false true = (4, false) ∧
    workerStep 4 false false = (0, true) ∧
    (workerRun 1 [(false, true), (false, false), (true, true)]).1 < 5 :=
  ⟨poller_counter_and_reconnect.2.1 3 true (by decide),
   poller_counter_and_reconnect.2.2.1 4 false (by decide),
   poller_counter_and_reconnect.2.2.2.2.1
     [(false, true), (false, false), (true, true)] 1 (by decide)⟩

/-- C7: whenever `update_hardware_data` runs with a raising collection, an
unusable returned document, or no monitor at all, the cached snapshot and
its stored-time are exactly what they were before the call (prior value
preserved, or still empty), the call reports failure, and the cache age a
later read computes is unchanged — it keeps measuring from the prior
stored-time. -/
theorem cache_preserved_on_failed_update :
    ∀ monitorPresent fetch st now now2,
      (monitorPresent = false ∨ fetch = FetchOutcome.raises ∨
        (∃ d, fetch = FetchOutcome.returns d ∧ usableData d = false)) →
      update_hardware_data monitorPresent fetch st now = (st, false) ∧
      cacheAge ((update_hardware_data monitorPresent fetch st now).1) now2 =
        cacheAge st now2 := by
  intro monitorPresent fetch st now now2 h
  have hpre : update_hardware_data monitorPresent fetch st now = (st, false) := by
    rcases h with h | h | ⟨d, hd, hu⟩
    · simp [update_hardware_data, h]
    · cases monitorPresent <;> simp [update_hardware_data, h]
    · cases monitorPresent <;> simp [update_hardware_data, hd, hu]
  exact ⟨hpre, by rw [hpre]⟩

/-- C7 witness: a raising collection against a cache stored at time 3 leaves
the snapshot and stored-time untouched, and a read at time 10 still measures
the age from the prior stored-time. -/
theorem cache_preserved_witness :
    update_hardware_data true FetchOutcome.raises
        ⟨some sentinelSnapshot, some 3⟩ 5 =
      (⟨some sentinelSnapshot, some 3⟩, false) ∧
    cacheAge ((update_hardware_data true FetchOutcome.raises
        ⟨some sentinelSnapshot, some 3⟩ 5).1) 10 =
      cacheAge ⟨some sentinelSnapshot, some 3⟩ 10 :=
  cache_preserved_on_failed_update true FetchOutcome.raises
    ⟨some sentinelSnapshot, some 3⟩ 5 10 (Or.inr (Or.inl rfl))

/-- C8: `initialize_idrac_client` signals the readiness gate
(`initialization_complete`) in every outcome; on its first usable fetch it
stores the snapshot and its stored-time into the cache (also setting
`initial_data_fetched`) and reports success; on exhausting all attempts it
reports failure with the cache, stored-time and `initial_data_fetched` left
exactly as before (so an initially empty cache stays empty); and a read
request whose bounded gate wait times out receives the distinguishable
"still initializing" response instead of data. -/
theorem init_always_signals_gate_and_read_timeout :
    (∀ attempts st now,
      ((initialize_idrac_client attempts st now).1).initComplete = true) ∧
    (∀ attempts st now, (initialize_idrac_client attempts st now).2 = false →
      ((initialize_idrac_client attempts st now).1).cache = st.cache ∧
      ((initialize_idrac_client attempts st now).1).storedAt = st.storedAt ∧
      ((initialize_idrac_client attempts st now).1).initialFetched =
        st.initialFetched) ∧
    (∀ attempts st now, (initialize_idrac_client attempts st now).2 = true →
      ∃ d, usableData d = true ∧
        ((initialize_idrac_client attempts st now).1).cache = some d ∧
        ((initialize_idrac_client attempts st now).1).storedAt = some now ∧
        ((initialize_idrac_client attempts st now).1).initialFetched = true) ∧
    (∀ monitorPresent fetch st now refreshInterval,
      get_server_status false monitorPresent fetch st now refreshInterval =
        StatusResp.initializing) := by
  refine ⟨?_, ?_, ?_, fun mp fetch st now ri => rfl⟩
  · intro attempts
    induction attempts with
    | nil => intro st now; rfl
    | cons a rest ih =>
      intro st now
      cases a with
      | raises => simpa [initialize_idrac_client] using ih st now
      | returns d =>
        by_cases hu : usableData d = true
        · simp [initialize_idrac_client, hu]
        · simpa [initialize_idrac_client, hu] using ih st now
  · intro attempts
    induction attempts with
    | nil => intro st now _; exact ⟨rfl, rfl, rfl⟩
    | cons a rest ih =>
      intro st now h
      cases a with
      | raises => exact ih st now (by simpa [initialize_idrac_client] using h)
      | returns d =>
        by_cases hu : usableData d = true
        · simp [initialize_idrac_client, hu] at h
        · simp only [initialize_idrac_client, hu, if_false] at h ⊢
          exact ih st now h
  · intro attempts
    induction attempts with
    | nil => intro st now h; simp [initialize_idrac_client] at h
    | cons a rest ih =>
      intro st now h
      cases a with
      | raises => exact ih st now (by simpa [initialize_idrac_client] using h)
      | returns d =>
        by_cases hu : usableData d = true
        · exact ⟨d, hu, by simp [initialize_idrac_client, hu]⟩
        · simp only [initialize_idrac_client, hu, if_false] at h ⊢
          exact ih st now h

/-- C8 witness: three raising attempts against the fresh process state set
the gate and leave the cache empty while reporting failure; one usable
attempt stores the sentinel snapshot; and a timed-out gate wait at a
concrete read yields the "still initializing" response. -/
theorem init_gate_witness :
    ((initialize_idrac_client [InitAttempt.raises, InitAttempt.raises,
        InitAttempt.raises] ⟨none, none, false, false⟩ 7).1).initComplete =
      true ∧
    ((initialize_idrac_client [InitAttempt.raises, InitAttempt.raises,
        InitAttempt.raises] ⟨none, none, false, false⟩ 7).1).cache = none ∧
    (∃ d, usableData d = true ∧
      ((initialize_idrac_client [InitAttempt.returns sentinelSnapshot]
          ⟨none, none, false, false⟩ 7).1).cache = some d ∧
      ((initialize_idrac_client [InitAttempt.returns sentinelSnapshot]
          ⟨none, none, false, false⟩ 7).1).storedAt = some 7 ∧
      ((initialize_idrac_client [InitAttempt.returns sentinelSnapshot]
          ⟨none, none, false, false⟩ 7).1).initialFetched = true) ∧
    get_server_status false true FetchOutcome.raises ⟨none, none⟩ 0 300 =
      StatusResp.initializing := by
  refine ⟨init_always_signals_gate_and_read_timeout.1 _ _ 7, ?_, ?_, ?_⟩
  · exact (init_always_signals_gate_and_read_timeout.2.1
      [InitAttempt.raises, InitAttempt.raises, InitAttempt.raises]
      ⟨none, none, false, false⟩ 7 rfl).1
  · exact init_always_signals_gate_and_read_timeout.2.2.1
      [InitAttempt.returns sentinelSnapshot] ⟨none, none, false, false⟩ 7 rfl
  · exact init_always_signals_gate_and_read_timeout.2.2.2 true
      FetchOutcome.raises ⟨none, none⟩ 0 300

end IdracMonitor
